import Mathlib

/-!
# Binder NDK object identities and the graphic buffer mapper

A shallow embedding of

* `libs/binder/ndk/AIBinder_internal.h`: the user transaction window
  (`isUserCommand`), the binder identity `AIBinder` with its two concrete
  variants `ABBinder` (local object) and `ABpBinder` (proxy), and the class
  descriptor `AIBinder_Class`;
* `libs/ui/GraphicBufferMapper.cpp`: `importBuffer`, `freeBuffer`, `unlock`
  and `unlockAsync`.

Machine integers are natural numbers or integers; a 32-bit unsigned value is
a natural number below `2 ^ 32`.  Pointers to objects whose contents matter
are modelled by the pointee; a nullable pointer is an `Option`.  Calls that
leave the process (HAL entry points, `sync_wait`, `close`) and user callbacks
are recorded in explicit traces, so that "is called" and "is not called" are
statements about a list.
-/

/-! ## Scalar types of the binder NDK -/

/-- The type `transaction_code_t`, a `uint32_t`. -/
abbrev transaction_code_t := Nat

/-- The type `binder_status_t`, an `int32_t`. -/
abbrev binder_status_t := Int

/-- The type `binder_flags_t`, a `uint32_t`. -/
abbrev binder_flags_t := Nat

/-- The type `android::String16`, kept abstract as a string. -/
abbrev String16 := String

/-- The contents of an `android::Parcel`. -/
abbrev Parcel := List Nat

/-- A `void*` handed to and from user callbacks; `0` is `nullptr`. -/
abbrev UserData := Nat

/-- Conversion of a C `int` expression to `uint32_t` (reduction modulo `2 ^ 32`). -/
def toUInt32 (n : Int) : Nat := (n % 4294967296).toNat

/-- The two enumerators of `binder/IBinder.h` that `isUserCommand` reads.  The
header is not among the sources, so the window is a parameter of the model. -/
structure TransactionCodes where
  FIRST_CALL_TRANSACTION : Nat
  LAST_CALL_TRANSACTION : Nat
  deriving DecidableEq, Repr

/-- The values the enumerators have on Android (`0x00000001`, `0x00ffffff`). -/
def androidCodes : TransactionCodes :=
  { FIRST_CALL_TRANSACTION := 0x00000001, LAST_CALL_TRANSACTION := 0x00ffffff }

/-- The function `isUserCommand` (AIBinder_internal.h, lines 27-29):
`code >= FIRST_CALL_TRANSACTION && code <= LAST_CALL_TRANSACTION`. -/
def isUserCommand (k : TransactionCodes) (code : transaction_code_t) : Bool :=
  decide (code ≥ k.FIRST_CALL_TRANSACTION) && decide (code ≤ k.LAST_CALL_TRANSACTION)

/-! ## Transport objects (libbinder)

`binder/IBinder.h`, `binder/Binder.h` and the proxy classes of libbinder are
not among the sources.  The header under study only uses three facts about
them: a transport object has an identity, `BBinder` is the class of objects
served by this process, and `remoteBinder()` is non-null exactly for a
transport proxy. -/

/-- Modelled from the spec: the transport's "locally dispatchable object"
(`android::BBinder`, declared in binder/Binder.h, which is absent).  It is
identified by its address. -/
structure BBinder where
  addr : Nat
  deriving DecidableEq, Repr

/-- Modelled from the spec: the transport's handle to an object that lives in
another process (`android::BpBinder`, absent), identified by its handle
number. -/
structure BpBinder where
  handle : Nat
  deriving DecidableEq, Repr

/-- Modelled from the spec: what an `sp<IBinder>` refers to (binder/IBinder.h
is absent): either a local transport object or a transport proxy. -/
inductive IBinder where
  | bbinder (b : BBinder)
  | bpbinder (p : BpBinder)
  deriving DecidableEq, Repr

/-- Modelled from the spec: `IBinder::remoteBinder()` (absent): null for a
local transport object, the proxy itself for a transport proxy. -/
def IBinder.remoteBinder : IBinder → Option BpBinder
  | .bbinder _ => none
  | .bpbinder p => some p

/-! ## Class descriptors -/

/-- The struct `AIBinder_Class` (AIBinder_internal.h, lines 96-110).  The
callback types come from android/binder_ibinder.h, which is absent; they are
modelled from the spec: `onCreate` turns construct arguments into the opaque
state, `onDestroy` releases it, and `onTransact` receives the opaque state,
the code, the serialized arguments, the reply sink and the flags, and yields
a status together with the contents it leaves in the reply sink. -/
structure AIBinder_Class where
  onCreate : UserData → UserData
  onDestroy : UserData → Unit
  onTransact : UserData → transaction_code_t → Parcel → Parcel → binder_flags_t →
    binder_status_t × Parcel
  mInterfaceDescriptor : String16

/-- The accessor `AIBinder_Class::getInterfaceDescriptor` (line 100). -/
def AIBinder_Class.getInterfaceDescriptor (self : AIBinder_Class) : String16 :=
  self.mInterfaceDescriptor

/-- Modelled from the spec: the constructor of `AIBinder_Class` (declared at
lines 97-98, defined in a file that is absent), the spec's `defineClass`: an
immutable descriptor holding the given name and callbacks. -/
def AIBinder_Class.define (interfaceDescriptor : String)
    (onCreate : UserData → UserData) (onDestroy : UserData → Unit)
    (onTransact : UserData → transaction_code_t → Parcel → Parcel → binder_flags_t →
      binder_status_t × Parcel) : AIBinder_Class :=
  { onCreate := onCreate, onDestroy := onDestroy, onTransact := onTransact,
    mInterfaceDescriptor := interfaceDescriptor }

/-! ## Binder identities -/

/-- The data of the base class `AIBinder` (lines 34-55): the strong reference
count of its virtual base `RefBase` and the nullable class pointer `mClazz`. -/
structure AIBinder.Base where
  mStrong : Nat
  mClazz : Option AIBinder_Class

/-- The accessor `AIBinder::getClass` (line 39). -/
def AIBinder.Base.getClass (self : AIBinder.Base) : Option AIBinder_Class :=
  self.mClazz

/-- Modelled from the spec: `AIBinder::associateClass` (declared at line 38;
its definition is absent), the spec's `associate`.  The descriptor is
non-empty.  With no associated class the identity takes the given one and the
call succeeds; otherwise the call succeeds exactly when the two interface
names are equal, and the state is left unchanged. -/
def AIBinder.Base.associateClass (self : AIBinder.Base) (clazz : AIBinder_Class) :
    Bool × AIBinder.Base :=
  match self.mClazz with
  | none => (true, { self with mClazz := some clazz })
  | some current =>
    (decide (current.getInterfaceDescriptor = clazz.getInterfaceDescriptor), self)

/-- The struct `ABBinder` (lines 58-80): an `AIBinder` that is also a `BBinder`,
with the user data pointer `mUserData`. -/
structure ABBinder extends AIBinder.Base, BBinder where
  mUserData : UserData

/-- The struct `ABpBinder` (lines 84-94): an `AIBinder` that is also a
`BpRefBase`, whose only datum is the wrapped `sp<IBinder>`. -/
structure ABpBinder extends AIBinder.Base where
  mRemote : IBinder

/-- The accessor `BpRefBase::remote()`, the wrapped transport object. -/
def ABpBinder.remote (self : ABpBinder) : IBinder := self.mRemote

/-- An object reached through an `AIBinder*`: one of the two concrete
variants.  (`AIBinder` itself is abstract: `getBinder` is pure virtual.) -/
inductive AIBinder where
  | ofABBinder (b : ABBinder)
  | ofABpBinder (p : ABpBinder)

/-- The base-class part of an identity. -/
def AIBinder.base : AIBinder → AIBinder.Base
  | .ofABBinder b => b.toBase
  | .ofABpBinder p => p.toBase

/-- The same object with its base-class part replaced. -/
def AIBinder.withBase : AIBinder → AIBinder.Base → AIBinder
  | .ofABBinder b, base => .ofABBinder { b with toBase := base }
  | .ofABpBinder p, base => .ofABpBinder { p with toBase := base }

/-- The accessor `AIBinder::getClass` through an `AIBinder*`. -/
def AIBinder.getClass (self : AIBinder) : Option AIBinder_Class :=
  self.base.getClass

/-- The method `AIBinder::associateClass` through an `AIBinder*`: the result
and the object afterwards. -/
def AIBinder.associateClass (self : AIBinder) (clazz : AIBinder_Class) :
    Bool × AIBinder :=
  ((self.base.associateClass clazz).1, self.withBase (self.base.associateClass clazz).2)

/-- The virtual `getBinder` (line 41): `ABBinder` returns `this` (line 63), seen
as the transport object it is; `ABpBinder` returns `remote()` (line 89). -/
def AIBinder.getBinder : AIBinder → IBinder
  | .ofABBinder b => .bbinder b.toBBinder
  | .ofABpBinder p => p.remote

/-- The virtual `asABBinder`: `nullptr` in the base class (line 42), `this` in
`ABBinder` (line 64). -/
def AIBinder.asABBinder : AIBinder → Option ABBinder
  | .ofABBinder b => some b
  | .ofABpBinder _ => none

/-- The virtual `asABpBinder`: `nullptr` in the base class (line 43), `this` in
`ABpBinder` (line 90). -/
def AIBinder.asABpBinder : AIBinder → Option ABpBinder
  | .ofABBinder _ => none
  | .ofABpBinder p => some p

/-- The method `AIBinder::isRemote` (lines 45-48):
`getBinder()->remoteBinder() != nullptr`. -/
def AIBinder.isRemote (self : AIBinder) : Bool :=
  self.getBinder.remoteBinder != none

/-- The accessor `ABBinder::getUserData` (line 61). -/
def ABBinder.getUserData (self : ABBinder) : UserData := self.mUserData

/-! ## Local objects: construction and dispatch

`ABBinder::getInterfaceDescriptor`, `ABBinder::onTransact`, `AIBinder_new` and
`ABpBinder::fromBinder` are declared in the header and defined in a file that
is not among the sources. -/

/-- Modelled from the spec: the "unknown transaction" status
(`STATUS_UNKNOWN_TRANSACTION` of android/binder_status.h, which is absent;
`-EBADMSG` on Android). -/
def STATUS_UNKNOWN_TRANSACTION : binder_status_t := -74

/-- One invocation of a class descriptor's transaction handler, with the
arguments it received. -/
structure HandlerCall where
  userData : UserData
  code : transaction_code_t
  data : Parcel
  reply : Parcel
  flags : binder_flags_t
  deriving DecidableEq, Repr

/-- What a transaction leaves behind: the status returned to the transport,
the contents of the reply sink, and the handler invocations made, in order. -/
structure TransactResult where
  status : binder_status_t
  reply : Parcel
  calls : List HandlerCall
  deriving DecidableEq, Repr

/-- Modelled from the spec: `ABBinder::getInterfaceDescriptor` (declared at
line 66, definition absent): the interface name of the associated class
descriptor.  A null class pointer cannot be dereferenced (`none`). -/
def ABBinder.getInterfaceDescriptor (self : ABBinder) : Option String16 :=
  match self.getClass with
  | none => none
  | some clazz => some clazz.getInterfaceDescriptor

/-- Modelled from the spec: `ABBinder::onTransact` (declared at lines 67-68;
its definition is absent), the spec's `onTransaction`.  Step 1: a code outside
the user window fails with the "unknown transaction" status and the handler is
not invoked.  Step 2: the class descriptor's handler is called with the
object's opaque state, the code, the arguments, the reply sink and the flags,
and its status is returned.  A null class pointer cannot be dereferenced
(`none`). -/
def ABBinder.onTransact (k : TransactionCodes) (self : ABBinder)
    (code : transaction_code_t) (data : Parcel) (reply : Parcel)
    (flags : binder_flags_t) : Option TransactResult :=
  if isUserCommand k code then
    match self.getClass with
    | none => none
    | some clazz =>
      some { status := (clazz.onTransact self.getUserData code data reply flags).1,
             reply := (clazz.onTransact self.getUserData code data reply flags).2,
             calls := [{ userData := self.getUserData, code := code, data := data,
                         reply := reply, flags := flags }] }
  else
    some { status := STATUS_UNKNOWN_TRANSACTION, reply := reply, calls := [] }

/-- Modelled from the spec: `AIBinder_new` (named as the only creator of an
`ABBinder` at lines 73-74, definition absent), the spec's `createLocal`:
the class descriptor's construct callback yields the opaque state, which is
wrapped with the descriptor into a new local object with reference count 1.
The argument `self` is the address at which the object is allocated. -/
def AIBinder_new (clazz : AIBinder_Class) (args : UserData) (self : BBinder) : AIBinder :=
  .ofABBinder { mStrong := 1, mClazz := some clazz, addr := self.addr,
                mUserData := clazz.onCreate args }

/-! ## Proxies: identity-preserving resolution -/

/-- Modelled from the spec: the process-wide table behind the spec's
`fromHandle` ("a shared table keyed by handle").  The proxies alive in the
process are held in `objects`; a reference to a proxy is its position there.
`byHandle` maps a transport handle to the proxy that wraps it. -/
structure ProxyTable where
  objects : List ABpBinder
  byHandle : List (IBinder × Nat)

/-- The table of a process that has resolved no handle yet. -/
def ProxyTable.empty : ProxyTable := { objects := [], byHandle := [] }

/-- One more strong reference on a proxy. -/
def ABpBinder.incStrong (self : ABpBinder) : ABpBinder :=
  { self with mStrong := self.mStrong + 1 }

/-- Modelled from the spec: the private constructor of `ABpBinder` (declared
at line 93, definition absent): a proxy that wraps the given transport handle,
has no associated class, and is held by one reference. -/
def ABpBinder.create (binder : IBinder) : ABpBinder :=
  { mStrong := 1, mClazz := none, mRemote := binder }

/-- Modelled from the spec: `ABpBinder::fromBinder` (declared at line 85;
its definition is absent), the spec's `fromHandle`.  If a proxy already exists for
this exact handle it is returned with its reference count incremented;
otherwise a new proxy with no associated class is created for the handle and
entered in the table.  The result is the reference and the table afterwards. -/
def ABpBinder.fromBinder (binder : IBinder) (t : ProxyTable) : Nat × ProxyTable :=
  match t.byHandle.lookup binder with
  | some ref => (ref, { t with objects := t.objects.modify ABpBinder.incStrong ref })
  | none =>
    (t.objects.length,
      { objects := t.objects ++ [ABpBinder.create binder],
        byHandle := (binder, t.objects.length) :: t.byHandle })

/-- The proxy a reference designates, if the reference is live. -/
def ProxyTable.deref (t : ProxyTable) (ref : Nat) : Option ABpBinder :=
  t.objects[ref]?

/-- The accessor `AIBinder::getClass` through a reference (`none` for a
reference that is not live). -/
def ProxyTable.getClass (t : ProxyTable) (ref : Nat) : Option (Option AIBinder_Class) :=
  (t.deref ref).map fun p => p.getClass

/-- The method `AIBinder::associateClass` through a reference: the result and
the table afterwards (`none` for a reference that is not live). -/
def ProxyTable.associateClass (t : ProxyTable) (ref : Nat) (clazz : AIBinder_Class) :
    Option (Bool × ProxyTable) :=
  (t.deref ref).map fun p =>
    ((p.toBase.associateClass clazz).1,
      { t with objects := t.objects.set ref { p with toBase := (p.toBase.associateClass clazz).2 } })

/-- The type `status_t`, an `int32_t`. -/
abbrev status_t := Int

/-- The constant `NO_ERROR` of utils/Errors.h. -/
def NO_ERROR : status_t := 0

/-- The type `buffer_handle_t`, a pointer to a native handle. -/
abbrev buffer_handle_t := Nat

/-- The enumeration `Gralloc2::Error`, an `int32_t`. -/
abbrev Gralloc2.Error := Int

/-- The enumerator `Gralloc2::Error::NONE`. -/
def Gralloc2.Error.NONE : Gralloc2.Error := 0

/-- The conversion `static_cast<status_t>(error)`. -/
def static_cast_status_t (error : Gralloc2.Error) : status_t := error

/-- The struct `Gralloc2::IMapper::BufferDescriptorInfo`. -/
structure Gralloc2.BufferDescriptorInfo where
  width : Nat
  height : Nat
  layerCount : Nat
  format : Int
  usage : Nat
  deriving DecidableEq, Repr

/-- A call that leaves `GraphicBufferMapper`, with its arguments. -/
inductive ExternalCall where
  | mapperImportBuffer (rawHandle : buffer_handle_t)
  | mapperValidateBufferSize (bufferHandle : buffer_handle_t)
      (descriptorInfo : Gralloc2.BufferDescriptorInfo) (stride : Nat)
  | mapperFreeBuffer (bufferHandle : buffer_handle_t)
  | moduleUnlock (handle : buffer_handle_t)
  | moduleUnlockAsync (handle : buffer_handle_t)
  | sync_wait (fd : Int) (timeout : Int)
  | close (fd : Int)
  deriving DecidableEq, Repr

/-- The environment of a call: the state of the HALs and the calls made so far. -/
structure World (σ : Type) where
  hal : σ
  trace : List ExternalCall
  deriving DecidableEq, Repr

/-- The entry points of `Gralloc2::Mapper` that `importBuffer` and `freeBuffer`
use.  `importBuffer` yields an error and the handle it wrote. -/
structure Gralloc2.Mapper (σ : Type) where
  importBuffer : σ → buffer_handle_t → (Gralloc2.Error × buffer_handle_t) × σ
  validateBufferSize : σ → buffer_handle_t → Gralloc2.BufferDescriptorInfo → Nat →
    Gralloc2.Error × σ
  freeBuffer : σ → buffer_handle_t → σ

/-- The fields of `gralloc_module_t` that `unlockAsync` uses.  The entry point
`unlockAsync` receives the current value of `*fenceFd` and yields the status
and the value of `*fenceFd` afterwards. -/
structure gralloc_module_t (σ : Type) where
  module_api_version : Nat
  unlock : σ → buffer_handle_t → status_t × σ
  unlockAsync : σ → buffer_handle_t → Int → (status_t × Int) × σ

/-- The class `GraphicBufferMapper`: its members `mMapper` and `mAllocMod`,
and the constant `GRALLOC_MODULE_API_VERSION_0_3` of hardware/gralloc.h, which
is not among the sources and is a parameter.  The constructor (lines 49-59)
leaves `mAllocMod` null when the gralloc module cannot be found. -/
structure GraphicBufferMapper (σ : Type) where
  mMapper : Gralloc2.Mapper σ
  mAllocMod : Option (gralloc_module_t σ)
  GRALLOC_MODULE_API_VERSION_0_3 : Nat

/-- The method `GraphicBufferMapper::freeBuffer` (lines 108-114):
`mMapper->freeBuffer(handle); return NO_ERROR;`. -/
def GraphicBufferMapper.freeBuffer {σ : Type} (self : GraphicBufferMapper σ)
    (handle : buffer_handle_t) (w : World σ) : status_t × World σ :=
  (NO_ERROR,
    { hal := self.mMapper.freeBuffer w.hal handle,
      trace := w.trace ++ [ExternalCall.mapperFreeBuffer handle] })

/-- The method `GraphicBufferMapper::importBuffer` (lines 61-91).  The argument
`outHandle` is the value stored at `*outHandle` on entry; the result is the
status, the value stored at `*outHandle` on exit, and the world afterwards. -/
def GraphicBufferMapper.importBuffer {σ : Type} (self : GraphicBufferMapper σ)
    (rawHandle : buffer_handle_t) (width height layerCount : Nat) (format : Int)
    (usage : Nat) (stride : Nat) (outHandle : buffer_handle_t) (w : World σ) :
    status_t × buffer_handle_t × World σ :=
  let imported := self.mMapper.importBuffer w.hal rawHandle
  let error := imported.1.1
  let bufferHandle := imported.1.2
  let w1 : World σ :=
    { hal := imported.2, trace := w.trace ++ [ExternalCall.mapperImportBuffer rawHandle] }
  if error != Gralloc2.Error.NONE then
    (static_cast_status_t error, outHandle, w1)
  else
    let descriptorInfo : Gralloc2.BufferDescriptorInfo :=
      { width := width, height := height, layerCount := layerCount, format := format,
        usage := usage }
    let validated := self.mMapper.validateBufferSize w1.hal bufferHandle descriptorInfo stride
    let error := validated.1
    let w2 : World σ :=
      { hal := validated.2,
        trace := w1.trace ++
          [ExternalCall.mapperValidateBufferSize bufferHandle descriptorInfo stride] }
    if error != Gralloc2.Error.NONE then
      (static_cast_status_t error, outHandle, (self.freeBuffer bufferHandle w2).2)
    else
      (static_cast_status_t error, bufferHandle, w2)

/-- The method `GraphicBufferMapper::unlockAsync` (lines 197-212).  The
argument `fenceFd` is the value stored at `*fenceFd` on entry; the result is
the status, the value stored at `*fenceFd` on exit, and the world afterwards.
A null `mAllocMod` cannot be dereferenced (`none`). -/
def GraphicBufferMapper.unlockAsync {σ : Type} (self : GraphicBufferMapper σ)
    (handle : buffer_handle_t) (fenceFd : Int) (w : World σ) :
    Option (status_t × Int × World σ) :=
  match self.mAllocMod with
  | none => none
  | some mAllocMod =>
    if mAllocMod.module_api_version ≥ self.GRALLOC_MODULE_API_VERSION_0_3 then
      let r := mAllocMod.unlockAsync w.hal handle fenceFd
      some (r.1.1, r.1.2,
        { hal := r.2, trace := w.trace ++ [ExternalCall.moduleUnlockAsync handle] })
    else
      let r := mAllocMod.unlock w.hal handle
      some (r.1, -1,
        { hal := r.2, trace := w.trace ++ [ExternalCall.moduleUnlock handle] })

/-- The method `GraphicBufferMapper::unlock` (lines 146-155). -/
def GraphicBufferMapper.unlock {σ : Type} (self : GraphicBufferMapper σ)
    (handle : buffer_handle_t) (w : World σ) : Option (status_t × World σ) :=
  match self.unlockAsync handle (-1) w with
  | none => none
  | some (error, fenceFd, w1) =>
    if error == NO_ERROR && decide (fenceFd ≥ 0) then
      some (error,
        { w1 with trace := w1.trace ++
            [ExternalCall.sync_wait fenceFd (-1), ExternalCall.close fenceFd] })
    else
      some (error, w1)

/-! ## Concrete instances used in the examples -/

/-- The class `demo.IEcho` of the spec's scenario: the handler answers code 7
with success and every other code with a failure status. -/
def demoIEcho : AIBinder_Class :=
  AIBinder_Class.define "demo.IEcho" (fun args => args) (fun _ => ())
    (fun _ code data _ _ => if code = 7 then (0, data) else (-38, []))

/-- The class `demo.IOther` of the spec's scenario. -/
def demoIOther : AIBinder_Class :=
  AIBinder_Class.define "demo.IOther" (fun args => args) (fun _ => ())
    (fun _ _ _ reply _ => (0, reply))

/-- A local object of class `demo.IEcho` with opaque state 42. -/
def demoLocal : ABBinder :=
  { mStrong := 1, mClazz := some demoIEcho, addr := 4096, mUserData := 42 }

/-- A proxy for the remote object behind transport handle 17, not yet
associated with a class. -/
def demoProxy : ABpBinder :=
  { mStrong := 1, mClazz := none, mRemote := .bpbinder { handle := 17 } }

/-- A proxy object that wraps a transport object served by this very process. -/
def proxyOfLocalBinder : ABpBinder :=
  { mStrong := 1, mClazz := none, mRemote := .bbinder { addr := 4096 } }

/-- A legacy gralloc module (API version 0.2) over a HAL state that counts
the buffers unlocked so far. -/
def legacyModule : gralloc_module_t Nat :=
  { module_api_version := 2,
    unlock := fun hal _ => (0, hal + 1),
    unlockAsync := fun hal _ _ => ((0, 9), hal + 1) }

/-- A gralloc module of API version 0.3 whose `unlockAsync` hands back the
fence fd 9. -/
def fenceModule : gralloc_module_t Nat :=
  { module_api_version := 3,
    unlock := fun hal _ => (0, hal + 1),
    unlockAsync := fun hal _ _ => ((0, 9), hal + 1) }

/-- A mapper HAL that imports a raw handle `h` as `h + 1000` and accepts a
buffer exactly when the requested stride is at least the requested width. -/
def demoMapper : Gralloc2.Mapper Nat :=
  { importBuffer := fun hal rawHandle =>
      if rawHandle = 0 then ((3, 0), hal) else ((0, rawHandle + 1000), hal),
    validateBufferSize := fun hal _ descriptorInfo stride =>
      if descriptorInfo.width ≤ stride then (0, hal) else (3, hal),
    freeBuffer := fun hal _ => hal }

/-- A `GraphicBufferMapper` on the legacy module, with
`GRALLOC_MODULE_API_VERSION_0_3 = 3`. -/
def legacyGraphicBufferMapper : GraphicBufferMapper Nat :=
  { mMapper := demoMapper, mAllocMod := some legacyModule,
    GRALLOC_MODULE_API_VERSION_0_3 := 3 }

/-- A `GraphicBufferMapper` on the module of API version 0.3. -/
def fenceGraphicBufferMapper : GraphicBufferMapper Nat :=
  { mMapper := demoMapper, mAllocMod := some fenceModule,
    GRALLOC_MODULE_API_VERSION_0_3 := 3 }

/-- The transport handle 17, a proxy for an object in another process. -/
def demoHandle : IBinder := IBinder.bpbinder { handle := 17 }

/-- C1. For every transaction code `c`, `isUserCommand c` is true exactly when
`FIRST_CALL_TRANSACTION ≤ c ≤ LAST_CALL_TRANSACTION`.  When the window is a
non-empty window of 32-bit codes that does not start at zero, both endpoints
are accepted, and `FIRST_CALL_TRANSACTION - 1` and `LAST_CALL_TRANSACTION + 1`
(converted to `uint32_t`) are rejected. -/
theorem isUserCommand_iff_in_window (k : TransactionCodes)
    (hpos : 0 < k.FIRST_CALL_TRANSACTION)
    (hle : k.FIRST_CALL_TRANSACTION ≤ k.LAST_CALL_TRANSACTION)
    (h32 : k.LAST_CALL_TRANSACTION < 2 ^ 32) :
    (∀ c : transaction_code_t, c < 2 ^ 32 →
        (isUserCommand k c = true ↔
          k.FIRST_CALL_TRANSACTION ≤ c ∧ c ≤ k.LAST_CALL_TRANSACTION)) ∧
    isUserCommand k k.FIRST_CALL_TRANSACTION = true ∧
    isUserCommand k k.LAST_CALL_TRANSACTION = true ∧
    isUserCommand k (toUInt32 ((k.FIRST_CALL_TRANSACTION : Int) - 1)) = false ∧
    isUserCommand k (toUInt32 ((k.LAST_CALL_TRANSACTION : Int) + 1)) = false := by
  refine ⟨?_, ?_, ?_, ?_, ?_⟩
  · intro c _
    simp [isUserCommand]
  · simp [isUserCommand, hle]
  · simp [isUserCommand, hle]
  · have : toUInt32 ((k.FIRST_CALL_TRANSACTION : Int) - 1) = k.FIRST_CALL_TRANSACTION - 1 := by
      unfold toUInt32
      omega
    rw [this]
    have h1 : ¬ (k.FIRST_CALL_TRANSACTION ≤ k.FIRST_CALL_TRANSACTION - 1) := by omega
    simp [isUserCommand, h1]
  · by_cases hlast : k.LAST_CALL_TRANSACTION + 1 < 4294967296
    · have h1 : toUInt32 ((k.LAST_CALL_TRANSACTION : Int) + 1)
          = k.LAST_CALL_TRANSACTION + 1 := by
        unfold toUInt32
        omega
      rw [h1]
      simp [isUserCommand]
    · have h1 : toUInt32 ((k.LAST_CALL_TRANSACTION : Int) + 1) = 0 := by
        unfold toUInt32
        omega
      rw [h1]
      have h2 : ¬ (k.FIRST_CALL_TRANSACTION ≤ 0) := by omega
      simp [isUserCommand, h2]

/-- C1 at the Android window `[1, 0x00ffffff]`. -/
theorem isUserCommand_iff_in_window_witness :
    (0 < androidCodes.FIRST_CALL_TRANSACTION ∧
      androidCodes.FIRST_CALL_TRANSACTION ≤ androidCodes.LAST_CALL_TRANSACTION ∧
      androidCodes.LAST_CALL_TRANSACTION < 2 ^ 32) ∧
    ((∀ c : transaction_code_t, c < 2 ^ 32 →
        (isUserCommand androidCodes c = true ↔
          androidCodes.FIRST_CALL_TRANSACTION ≤ c ∧ c ≤ androidCodes.LAST_CALL_TRANSACTION)) ∧
    isUserCommand androidCodes androidCodes.FIRST_CALL_TRANSACTION = true ∧
    isUserCommand androidCodes androidCodes.LAST_CALL_TRANSACTION = true ∧
    isUserCommand androidCodes
      (toUInt32 ((androidCodes.FIRST_CALL_TRANSACTION : Int) - 1)) = false ∧
    isUserCommand androidCodes
      (toUInt32 ((androidCodes.LAST_CALL_TRANSACTION : Int) + 1)) = false) :=
  ⟨⟨by decide, by decide, by decide⟩,
    isUserCommand_iff_in_window androidCodes (by decide) (by decide) (by decide)⟩

/-- C2. For every local object and every code outside the user window,
`ABBinder::onTransact` returns the "unknown transaction" status and makes no
call of the class descriptor's handler, whatever the data, the reply sink and
the flags are (the reply sink is left as it was). -/
theorem onTransact_outside_window (k : TransactionCodes) (b : ABBinder)
    (code : transaction_code_t) (data reply : Parcel) (flags : binder_flags_t)
    (hout : ¬ (k.FIRST_CALL_TRANSACTION ≤ code ∧ code ≤ k.LAST_CALL_TRANSACTION)) :
    b.onTransact k code data reply flags =
      some { status := STATUS_UNKNOWN_TRANSACTION, reply := reply, calls := [] } := by
  have hcmd : isUserCommand k code = false := by
    cases h : isUserCommand k code
    · rfl
    · exact absurd (by simpa [isUserCommand] using h) hout
  simp [ABBinder.onTransact, hcmd]

/-- C2 at the code `FIRST_CALL_TRANSACTION - 1 = 0` of the Android window. -/
theorem onTransact_outside_window_witness :
    ¬ (androidCodes.FIRST_CALL_TRANSACTION ≤ 0 ∧ 0 ≤ androidCodes.LAST_CALL_TRANSACTION) ∧
    demoLocal.onTransact androidCodes 0 [1, 2] [] 0 =
      some { status := STATUS_UNKNOWN_TRANSACTION, reply := [], calls := [] } :=
  ⟨by decide, onTransact_outside_window androidCodes demoLocal 0 [1, 2] [] 0 (by decide)⟩

/-- C5. For every local object with class descriptor `clazz` and every code in
the user window (endpoints included), `ABBinder::onTransact` makes exactly one
call of the descriptor's handler, with the object's own opaque state and the
same code, data, reply sink and flags, and returns exactly the status (and
leaves exactly the reply) that the handler produced. -/
theorem onTransact_inside_window (k : TransactionCodes) (b : ABBinder)
    (clazz : AIBinder_Class) (code : transaction_code_t) (data reply : Parcel)
    (flags : binder_flags_t)
    (hclass : b.getClass = some clazz)
    (hin : k.FIRST_CALL_TRANSACTION ≤ code ∧ code ≤ k.LAST_CALL_TRANSACTION) :
    b.onTransact k code data reply flags =
      some { status := (clazz.onTransact b.getUserData code data reply flags).1,
             reply := (clazz.onTransact b.getUserData code data reply flags).2,
             calls := [{ userData := b.getUserData, code := code, data := data,
                         reply := reply, flags := flags }] } := by
  have hcmd : isUserCommand k code = true := by
    simpa [isUserCommand] using hin
  simp [ABBinder.onTransact, hcmd, hclass]

/-- C5 at `LAST_CALL_TRANSACTION` of the Android window: the handler of
`demo.IEcho` is reached once and its failure status comes back. -/
theorem onTransact_inside_window_witness :
    (demoLocal.getClass = some demoIEcho ∧
      androidCodes.FIRST_CALL_TRANSACTION ≤ 0x00ffffff ∧
      0x00ffffff ≤ androidCodes.LAST_CALL_TRANSACTION) ∧
    demoLocal.onTransact androidCodes 0x00ffffff [1, 2] [] 0 =
      some { status := (demoIEcho.onTransact demoLocal.getUserData 0x00ffffff [1, 2] [] 0).1,
             reply := (demoIEcho.onTransact demoLocal.getUserData 0x00ffffff [1, 2] [] 0).2,
             calls := [{ userData := demoLocal.getUserData, code := 0x00ffffff, data := [1, 2],
                         reply := [], flags := 0 }] } :=
  ⟨⟨rfl, by decide, by decide⟩,
    onTransact_inside_window androidCodes demoLocal demoIEcho 0x00ffffff [1, 2] [] 0 rfl
      ⟨by decide, by decide⟩⟩

/-- C6. For every class descriptor `C` and every construct argument, the local
object made by `AIBinder_new` has `getClass()` equal to `C` and
`getInterfaceDescriptor()` equal to the interface name of `C`; for a descriptor
made by the constructor of `AIBinder_Class` that is the name it was defined
with. -/
theorem AIBinder_new_class_and_descriptor (C : AIBinder_Class) (args : UserData)
    (self : BBinder) :
    (AIBinder_new C args self).getClass = some C ∧
    (∃ b, (AIBinder_new C args self).asABBinder = some b ∧
      b.getInterfaceDescriptor = some C.getInterfaceDescriptor) ∧
    (∀ name onCreate onDestroy onTransact,
      C = AIBinder_Class.define name onCreate onDestroy onTransact →
      ∃ b, (AIBinder_new C args self).asABBinder = some b ∧
        b.getInterfaceDescriptor = some name) := by
  refine ⟨rfl, ⟨_, rfl, rfl⟩, ?_⟩
  intro name onCreate onDestroy onTransact hC
  subst hC
  exact ⟨_, rfl, rfl⟩

/-- C3. For an identity with no associated class, `associateClass A` succeeds
and makes `A` the class; a following `associateClass B` returns true exactly
when the interface names of `A` and `B` are equal (`B` need not be the same
descriptor as `A`), and when it returns false `getClass()` is still `A`. -/
theorem associateClass_then_associateClass (x : AIBinder) (A B : AIBinder_Class)
    (hnone : x.getClass = none) :
    (x.associateClass A).1 = true ∧
    (x.associateClass A).2.getClass = some A ∧
    (((x.associateClass A).2.associateClass B).1 = true ↔
      A.getInterfaceDescriptor = B.getInterfaceDescriptor) ∧
    (((x.associateClass A).2.associateClass B).1 = false →
      ((x.associateClass A).2.associateClass B).2.getClass = some A) := by
  cases x with
  | ofABBinder b =>
    have hb : b.mClazz = none := hnone
    simp [AIBinder.associateClass, AIBinder.Base.associateClass, AIBinder.base,
      AIBinder.withBase, AIBinder.getClass, AIBinder.Base.getClass, hb]
  | ofABpBinder p =>
    have hp : p.mClazz = none := hnone
    simp [AIBinder.associateClass, AIBinder.Base.associateClass, AIBinder.base,
      AIBinder.withBase, AIBinder.getClass, AIBinder.Base.getClass, hp]

/-- C3 on a fresh proxy with `A = demo.IEcho` and `B = demo.IOther`. -/
theorem associateClass_then_associateClass_witness :
    (AIBinder.ofABpBinder demoProxy).getClass = none ∧
    (((AIBinder.ofABpBinder demoProxy).associateClass demoIEcho).1 = true ∧
    ((AIBinder.ofABpBinder demoProxy).associateClass demoIEcho).2.getClass = some demoIEcho ∧
    ((((AIBinder.ofABpBinder demoProxy).associateClass demoIEcho).2.associateClass
        demoIOther).1 = true ↔
      demoIEcho.getInterfaceDescriptor = demoIOther.getInterfaceDescriptor) ∧
    ((((AIBinder.ofABpBinder demoProxy).associateClass demoIEcho).2.associateClass
        demoIOther).1 = false →
      (((AIBinder.ofABpBinder demoProxy).associateClass demoIEcho).2.associateClass
        demoIOther).2.getClass = some demoIEcho)) :=
  ⟨rfl, associateClass_then_associateClass (AIBinder.ofABpBinder demoProxy)
    demoIEcho demoIOther rfl⟩

/-- C4, as stated, fails: an `ABpBinder` that wraps a local transport object is
a proxy variant (`asABpBinder` is non-null) and `isRemote` returns false. -/
theorem isRemote_false_on_proxy_of_local_binder :
    (AIBinder.ofABpBinder proxyOfLocalBinder).asABpBinder = some proxyOfLocalBinder ∧
    (AIBinder.ofABpBinder proxyOfLocalBinder).isRemote = false :=
  ⟨rfl, by decide⟩

/-- C4, amended. `isRemote` is false for every local object (`ABBinder`); for a
proxy object (`ABpBinder`) it is true exactly when the wrapped transport handle
is a transport proxy, so it is false for a proxy object that wraps a local
transport object.  It does not depend on the class pointer or the reference
count of the identity. -/
theorem isRemote_iff_transport_proxy :
    (∀ b : ABBinder, (AIBinder.ofABBinder b).isRemote = false) ∧
    (∀ p : ABpBinder, (AIBinder.ofABpBinder p).isRemote = true ↔
      ∃ h : BpBinder, p.remote = IBinder.bpbinder h) ∧
    (∀ (x : AIBinder) (base : AIBinder.Base), (x.withBase base).isRemote = x.isRemote) := by
  refine ⟨?_, ?_, ?_⟩
  · intro b
    rfl
  · intro p
    cases h : p.mRemote with
    | bbinder l =>
      simp [AIBinder.isRemote, AIBinder.getBinder, ABpBinder.remote, h, IBinder.remoteBinder]
    | bpbinder r =>
      simp [AIBinder.isRemote, AIBinder.getBinder, ABpBinder.remote, h, IBinder.remoteBinder]
  · intro x base
    cases x <;> rfl

/-- C10. The variant discriminators are exclusive and exhaustive: on a local
object `asABBinder` is the object and `asABpBinder` is null; on a proxy object
`asABpBinder` is the object and `asABBinder` is null; so exactly one of the two
is non-null on every identity.  `getBinder` of a local object is the object
itself (as a transport object) and `getBinder` of a proxy object is the handle
it wraps. -/
theorem discriminators_exclusive_exhaustive :
    (∀ b : ABBinder,
      (AIBinder.ofABBinder b).asABBinder = some b ∧
      (AIBinder.ofABBinder b).asABpBinder = none ∧
      (AIBinder.ofABBinder b).getBinder = IBinder.bbinder b.toBBinder) ∧
    (∀ p : ABpBinder,
      (AIBinder.ofABpBinder p).asABpBinder = some p ∧
      (AIBinder.ofABpBinder p).asABBinder = none ∧
      (AIBinder.ofABpBinder p).getBinder = p.mRemote) ∧
    (∀ x : AIBinder,
      (x.asABBinder ≠ none ∧ x.asABpBinder = none) ∨
      (x.asABBinder = none ∧ x.asABpBinder ≠ none)) := by
  refine ⟨fun b => ⟨rfl, rfl, rfl⟩, fun p => ⟨rfl, rfl, rfl⟩, ?_⟩
  intro x
  cases x with
  | ofABBinder b => exact Or.inl ⟨by simp [AIBinder.asABBinder], rfl⟩
  | ofABpBinder p => exact Or.inr ⟨rfl, by simp [AIBinder.asABpBinder]⟩

/-! ### Resolution of handles -/

/-- C8. `GraphicBufferMapper::importBuffer` is atomic on failure.  If the
mapper's `importBuffer` fails, its error is returned, `*outHandle` keeps its
value, and the import is the only call made (no validation, no free).  If
the import succeeds and `validateBufferSize` fails, the validation error is
returned, `*outHandle` keeps its value, and the imported handle is freed once,
after the validation.  If both return `NONE`, `NONE` is returned, `*outHandle`
holds the imported handle, and nothing is freed.  Hence `*outHandle` changes
only when both calls returned `NONE`. -/
theorem importBuffer_atomic {σ : Type} (self : GraphicBufferMapper σ)
    (rawHandle : buffer_handle_t) (width height layerCount : Nat) (format : Int)
    (usage stride : Nat) (outHandle : buffer_handle_t) (w : World σ) :
    (∀ error bufferHandle hal1,
      self.mMapper.importBuffer w.hal rawHandle = ((error, bufferHandle), hal1) →
      (error ≠ Gralloc2.Error.NONE →
        self.importBuffer rawHandle width height layerCount format usage stride outHandle w =
          (static_cast_status_t error, outHandle,
            { hal := hal1,
              trace := w.trace ++ [ExternalCall.mapperImportBuffer rawHandle] })) ∧
      (error = Gralloc2.Error.NONE →
        ∀ error2 hal2,
          self.mMapper.validateBufferSize hal1 bufferHandle
            { width := width, height := height, layerCount := layerCount,
              format := format, usage := usage } stride = (error2, hal2) →
          (error2 ≠ Gralloc2.Error.NONE →
            self.importBuffer rawHandle width height layerCount format usage stride
                outHandle w =
              (static_cast_status_t error2, outHandle,
                { hal := self.mMapper.freeBuffer hal2 bufferHandle,
                  trace := w.trace ++
                    [ExternalCall.mapperImportBuffer rawHandle,
                     ExternalCall.mapperValidateBufferSize bufferHandle
                       { width := width, height := height, layerCount := layerCount,
                         format := format, usage := usage } stride,
                     ExternalCall.mapperFreeBuffer bufferHandle] })) ∧
          (error2 = Gralloc2.Error.NONE →
            self.importBuffer rawHandle width height layerCount format usage stride
                outHandle w =
              (static_cast_status_t Gralloc2.Error.NONE, bufferHandle,
                { hal := hal2,
                  trace := w.trace ++
                    [ExternalCall.mapperImportBuffer rawHandle,
                     ExternalCall.mapperValidateBufferSize bufferHandle
                       { width := width, height := height, layerCount := layerCount,
                         format := format, usage := usage } stride] })))) ∧
    ((self.importBuffer rawHandle width height layerCount format usage stride
          outHandle w).2.1 ≠ outHandle →
      (self.mMapper.importBuffer w.hal rawHandle).1.1 = Gralloc2.Error.NONE ∧
      (self.mMapper.validateBufferSize (self.mMapper.importBuffer w.hal rawHandle).2
          (self.mMapper.importBuffer w.hal rawHandle).1.2
          { width := width, height := height, layerCount := layerCount,
            format := format, usage := usage } stride).1 = Gralloc2.Error.NONE ∧
      (self.importBuffer rawHandle width height layerCount format usage stride
          outHandle w).2.1 = (self.mMapper.importBuffer w.hal rawHandle).1.2 ∧
      (self.importBuffer rawHandle width height layerCount format usage stride
          outHandle w).1 = static_cast_status_t Gralloc2.Error.NONE) := by
  refine ⟨?_, ?_⟩
  · intro error bufferHandle hal1 himp
    refine ⟨?_, ?_⟩
    · intro herr
      simp [GraphicBufferMapper.importBuffer, himp, herr]
    · intro herr error2 hal2 hval
      subst herr
      refine ⟨?_, ?_⟩
      · intro herr2
        simp [GraphicBufferMapper.importBuffer, himp, hval, herr2,
          GraphicBufferMapper.freeBuffer]
      · intro herr2
        subst herr2
        simp [GraphicBufferMapper.importBuffer, himp, hval]
  · intro hchanged
    by_cases h1 : (self.mMapper.importBuffer w.hal rawHandle).1.1 = Gralloc2.Error.NONE
    · by_cases h2 : (self.mMapper.validateBufferSize (self.mMapper.importBuffer w.hal rawHandle).2
          (self.mMapper.importBuffer w.hal rawHandle).1.2
          { width := width, height := height, layerCount := layerCount,
            format := format, usage := usage } stride).1 = Gralloc2.Error.NONE
      · refine ⟨h1, h2, ?_, ?_⟩
        · simp [GraphicBufferMapper.importBuffer, h1, h2]
        · simp [GraphicBufferMapper.importBuffer, h1, h2]
      · exact absurd (by simp [GraphicBufferMapper.importBuffer, h1, h2]) hchanged
    · exact absurd (by simp [GraphicBufferMapper.importBuffer, h1]) hchanged

/-- C9. With a gralloc module present, `unlockAsync` returns, and `unlock`
returns exactly its status; `unlock` calls `sync_wait` and `close` on the
returned fence exactly when that status is `NO_ERROR` and the fence fd is
`>= 0`, and makes no other call of its own.  For a module whose
`module_api_version` is below `GRALLOC_MODULE_API_VERSION_0_3`, `unlockAsync`
sets the fence fd to `-1` whatever it was and returns the status of the
module's synchronous `unlock`, so `unlock` neither waits on nor closes a
fence. -/
theorem unlock_waits_iff_fence {σ : Type} (self : GraphicBufferMapper σ)
    (mAllocMod : gralloc_module_t σ) (hmod : self.mAllocMod = some mAllocMod)
    (handle : buffer_handle_t) (w : World σ) :
    (∃ error fenceFd w1,
      self.unlockAsync handle (-1) w = some (error, fenceFd, w1) ∧
      self.unlock handle w =
        some (error,
          { hal := w1.hal,
            trace := w1.trace ++
              (if error = NO_ERROR ∧ 0 ≤ fenceFd then
                [ExternalCall.sync_wait fenceFd (-1), ExternalCall.close fenceFd]
              else []) })) ∧
    (mAllocMod.module_api_version < self.GRALLOC_MODULE_API_VERSION_0_3 →
      (∀ fenceFd : Int,
        self.unlockAsync handle fenceFd w =
          some ((mAllocMod.unlock w.hal handle).1, -1,
            { hal := (mAllocMod.unlock w.hal handle).2,
              trace := w.trace ++ [ExternalCall.moduleUnlock handle] })) ∧
      self.unlock handle w =
        some ((mAllocMod.unlock w.hal handle).1,
          { hal := (mAllocMod.unlock w.hal handle).2,
            trace := w.trace ++ [ExternalCall.moduleUnlock handle] })) := by
  refine ⟨?_, ?_⟩
  · by_cases hv : mAllocMod.module_api_version ≥ self.GRALLOC_MODULE_API_VERSION_0_3
    · refine ⟨(mAllocMod.unlockAsync w.hal handle (-1)).1.1,
        (mAllocMod.unlockAsync w.hal handle (-1)).1.2,
        { hal := (mAllocMod.unlockAsync w.hal handle (-1)).2,
          trace := w.trace ++ [ExternalCall.moduleUnlockAsync handle] }, ?_, ?_⟩
      · simp [GraphicBufferMapper.unlockAsync, hmod, hv]
      · by_cases hc : (mAllocMod.unlockAsync w.hal handle (-1)).1.1 = NO_ERROR ∧
            0 ≤ (mAllocMod.unlockAsync w.hal handle (-1)).1.2
        · simp [GraphicBufferMapper.unlock, GraphicBufferMapper.unlockAsync, hmod, hv, hc]
        · simp only [GraphicBufferMapper.unlock, GraphicBufferMapper.unlockAsync, hmod, hv,
            if_true, hc, if_false]
          simp [hc]
    · refine ⟨(mAllocMod.unlock w.hal handle).1, -1,
        { hal := (mAllocMod.unlock w.hal handle).2,
          trace := w.trace ++ [ExternalCall.moduleUnlock handle] }, ?_, ?_⟩
      · simp [GraphicBufferMapper.unlockAsync, hmod, hv]
      · simp [GraphicBufferMapper.unlock, GraphicBufferMapper.unlockAsync, hmod, hv]
  · intro hlt
    have hv : ¬ (mAllocMod.module_api_version ≥ self.GRALLOC_MODULE_API_VERSION_0_3) := by
      omega
    refine ⟨?_, ?_⟩
    · intro fenceFd
      simp [GraphicBufferMapper.unlockAsync, hmod, hv]
    · simp [GraphicBufferMapper.unlock, GraphicBufferMapper.unlockAsync, hmod, hv]

/-- C9 on a legacy module (API version 0.2 against the threshold 3). -/
theorem unlock_waits_iff_fence_witness :
    legacyGraphicBufferMapper.mAllocMod = some legacyModule ∧
    ((∃ error fenceFd w1,
      legacyGraphicBufferMapper.unlockAsync 77 (-1) { hal := 0, trace := [] } =
        some (error, fenceFd, w1) ∧
      legacyGraphicBufferMapper.unlock 77 { hal := 0, trace := [] } =
        some (error,
          { hal := w1.hal,
            trace := w1.trace ++
              (if error = NO_ERROR ∧ 0 ≤ fenceFd then
                [ExternalCall.sync_wait fenceFd (-1), ExternalCall.close fenceFd]
              else []) })) ∧
    (legacyModule.module_api_version <
        legacyGraphicBufferMapper.GRALLOC_MODULE_API_VERSION_0_3 →
      (∀ fenceFd : Int,
        legacyGraphicBufferMapper.unlockAsync 77 fenceFd { hal := 0, trace := [] } =
          some ((legacyModule.unlock 0 77).1, -1,
            { hal := (legacyModule.unlock 0 77).2,
              trace := [] ++ [ExternalCall.moduleUnlock 77] })) ∧
      legacyGraphicBufferMapper.unlock 77 { hal := 0, trace := [] } =
        some ((legacyModule.unlock 0 77).1,
          { hal := (legacyModule.unlock 0 77).2,
            trace := [] ++ [ExternalCall.moduleUnlock 77] }))) :=
  ⟨rfl, unlock_waits_iff_fence legacyGraphicBufferMapper legacyModule rfl 77
    { hal := 0, trace := [] }⟩

/-! ### Evaluations on the concrete instances -/

/-- On the module of API version 0.3, `unlock` waits on and closes the fence
that `unlockAsync` handed back. -/
theorem unlock_fenceModule_trace :
    fenceGraphicBufferMapper.unlock 77 { hal := 0, trace := [] } =
      some (0, { hal := 1,
                 trace := [ExternalCall.moduleUnlockAsync 77,
                           ExternalCall.sync_wait 9 (-1), ExternalCall.close 9] }) := by
  decide

/-- On the legacy module, `unlock` makes the synchronous call only. -/
theorem unlock_legacyModule_trace :
    legacyGraphicBufferMapper.unlock 77 { hal := 0, trace := [] } =
      some (0, { hal := 1, trace := [ExternalCall.moduleUnlock 77] }) := by
  decide

/-- A failed import: the error comes back and `*outHandle` keeps its value. -/
theorem importBuffer_import_fails :
    legacyGraphicBufferMapper.importBuffer 0 64 64 1 1 0 64 5 { hal := 0, trace := [] } =
      (3, 5, { hal := 0, trace := [ExternalCall.mapperImportBuffer 0] }) := by
  decide

/-- A failed validation: the imported handle is freed and `*outHandle` keeps
its value. -/
theorem importBuffer_validation_fails :
    legacyGraphicBufferMapper.importBuffer 8 64 64 1 1 0 32 5 { hal := 0, trace := [] } =
      (3, 5, { hal := 0,
               trace := [ExternalCall.mapperImportBuffer 8,
                         ExternalCall.mapperValidateBufferSize 1008
                           { width := 64, height := 64, layerCount := 1, format := 1,
                             usage := 0 } 32,
                         ExternalCall.mapperFreeBuffer 1008] }) := by
  decide

/-- A successful import: `*outHandle` receives the imported handle. -/
theorem importBuffer_succeeds :
    legacyGraphicBufferMapper.importBuffer 8 64 64 1 1 0 64 5 { hal := 0, trace := [] } =
      (0, 1008, { hal := 0,
                  trace := [ExternalCall.mapperImportBuffer 8,
                            ExternalCall.mapperValidateBufferSize 1008
                              { width := 64, height := 64, layerCount := 1, format := 1,
                                usage := 0 } 64] }) := by
  decide

/-- The first end-to-end scenario of the spec on a local object of class
`demo.IEcho` made by `AIBinder_new`: code 7 succeeds through the handler,
code `FIRST_CALL_TRANSACTION - 1` is answered "unknown transaction" without a
handler call, and `LAST_CALL_TRANSACTION` reaches the handler and returns its
failure status. -/
theorem scenario_demoIEcho_dispatch :
    ((AIBinder_new demoIEcho 42 { addr := 4096 }).asABBinder.bind fun b =>
        b.onTransact androidCodes 7 [1, 2] [] 0) =
      some { status := 0, reply := [1, 2],
             calls := [{ userData := 42, code := 7, data := [1, 2], reply := [],
                         flags := 0 }] } ∧
    ((AIBinder_new demoIEcho 42 { addr := 4096 }).asABBinder.bind fun b =>
        b.onTransact androidCodes 0 [1, 2] [] 0) =
      some { status := STATUS_UNKNOWN_TRANSACTION, reply := [], calls := [] } ∧
    ((AIBinder_new demoIEcho 42 { addr := 4096 }).asABBinder.bind fun b =>
        b.onTransact androidCodes 0x00ffffff [1, 2] [] 0) =
      some { status := -38, reply := [],
             calls := [{ userData := 42, code := 0x00ffffff, data := [1, 2], reply := [],
                         flags := 0 }] } := by
  decide

/-- The second end-to-end scenario of the spec: handle 17 is resolved twice
into the same proxy; associating `demo.IEcho` through the first reference
succeeds; associating `demo.IOther` through the second reference fails and
the proxy stays associated with `demo.IEcho`. -/
theorem scenario_two_resolutions :
    (ABpBinder.fromBinder (.bpbinder { handle := 17 })
        (ABpBinder.fromBinder (.bpbinder { handle := 17 }) ProxyTable.empty).2).1 =
      (ABpBinder.fromBinder (.bpbinder { handle := 17 }) ProxyTable.empty).1 ∧
    (((ABpBinder.fromBinder (.bpbinder { handle := 17 })
        (ABpBinder.fromBinder (.bpbinder { handle := 17 }) ProxyTable.empty).2).2.associateClass
          0 demoIEcho).map Prod.fst) = some true ∧
    ((((ABpBinder.fromBinder (.bpbinder { handle := 17 })
        (ABpBinder.fromBinder (.bpbinder { handle := 17 }) ProxyTable.empty).2).2.associateClass
          0 demoIEcho).bind fun r => r.2.associateClass 0 demoIOther).map Prod.fst) =
      some false ∧
    ((((ABpBinder.fromBinder (.bpbinder { handle := 17 })
        (ABpBinder.fromBinder (.bpbinder { handle := 17 }) ProxyTable.empty).2).2.associateClass
          0 demoIEcho).bind fun r => r.2.associateClass 0 demoIOther).bind fun r =>
        (r.2.getClass 0).map fun c => c.map AIBinder_Class.getInterfaceDescriptor) =
      some (some "demo.IEcho") := by
  decide

/-- Resolve, associate, resolve again: the second resolution of handle 17
returns the proxy that was associated with `demo.IEcho` in between, still
associated and now held by two references; no second proxy exists, and the
handle 18 resolves to a different reference. -/
theorem scenario_resolve_associate_resolve :
    (((ABpBinder.fromBinder demoHandle ProxyTable.empty).2.associateClass
        (ABpBinder.fromBinder demoHandle ProxyTable.empty).1 demoIEcho).map fun r =>
      ((ABpBinder.fromBinder demoHandle r.2).1,
        (ABpBinder.fromBinder demoHandle r.2).2.objects.length,
        ((ABpBinder.fromBinder demoHandle r.2).2.deref
          (ABpBinder.fromBinder demoHandle r.2).1).map fun p =>
            (p.getClass.map AIBinder_Class.getInterfaceDescriptor, p.mStrong, p.remote),
        (ABpBinder.fromBinder (IBinder.bpbinder { handle := 18 })
          (ABpBinder.fromBinder demoHandle r.2).2).1)) =
      some ((ABpBinder.fromBinder demoHandle ProxyTable.empty).1, 1,
        some (some "demo.IEcho", 2, demoHandle), 1) := by
  rfl
